import Mathlib

/-!
Shallow embedding of the urlmon check lifecycle core (src/main.go) and
verification of its specified properties.

Conventions of the embedding:
- Go machine integers that never overflow in this code are modelled as Int
  (check intervals and splays come from strconv.Atoi and stay tiny).
- A compiled regular expression (Go regexp.Regexp) is kept abstract as its
  Match function, of type String → Bool; regexp.Compile, an external library
  call, is passed in as a parameter of type String → Option (String → Bool).
- Fallible Go calls returning (value, error) become Except / Option values.
- log.Fatalf terminates the process; it is modelled as an Except.error that
  every caller propagates instead of handling.
-/

set_option autoImplicit false

/-- DefaultInterval, src/main.go line 30. -/
def DefaultInterval : Int := 15

/-- DefaultSplay, src/main.go line 33. -/
def DefaultSplay : Int := 5

/-- DefaultAlertLevel, src/main.go line 36. -/
def DefaultAlertLevel : String := "WARN"

/-- Go path.Base (used at src/main.go lines 232 and 236): returns the last
element of the path after stripping trailing slashes; "." for the empty
string, "/" when the path is all slashes. -/
def pathBase (p : String) : String :=
  if p = "" then "."
  else
    let r := p.toList.reverse.dropWhile (fun ch => ch == '/')
    if r = [] then "/"
    else (r.takeWhile (fun ch => ch != '/')).reverse.asString

/-- Go strings.ToUpper (src/main.go lines 236 and 253), for the ASCII keys
and level names this program uses. -/
def strUpper (s : String) : String :=
  (s.toList.map Char.toUpper).asString

/-- Read a nonempty all-digit character list as a number. -/
def parseDigits : List Char → Nat → Option Nat
  | [], acc => some acc
  | c :: t, acc =>
    if c.isDigit then parseDigits t (acc * 10 + (c.toNat - 48)) else none

/-- Go strconv.Atoi (called by valueStr): an optional sign followed by at
least one digit; anything else is a parse error. -/
def goAtoi (s : String) : Option Int :=
  match s.toList with
  | [] => none
  | '+' :: rest =>
    if rest = [] then none else (parseDigits rest 0).map Int.ofNat
  | '-' :: rest =>
    if rest = [] then none else (parseDigits rest 0).map (fun n => -(Int.ofNat n))
  | l => (parseDigits l 0).map Int.ofNat

/-- valueStr, src/main.go lines 221-227: strconv.Atoi with any parse error
mapped to 0. -/
def valueStr (value : String) : Int :=
  (goAtoi value).getD 0

/-- Go net/url.Parse (called at src/main.go line 238), modelled by its
documented behaviour: it accepts relative references and unescaped text such
as spaces, and returns an error only when the raw string contains an ASCII
control character (byte below 0x20 or DEL). The parsed URL is kept abstract
as its raw text. -/
def urlParse (s : String) : Option String :=
  if s.toList.any (fun ch => decide (ch.toNat < 32) || decide (ch.toNat = 127)) then
    none
  else
    some s

/-- Scan for pat as a contiguous sublist of l. -/
def containsSub (pat : List Char) : List Char → Bool
  | [] => pat.isEmpty
  | c :: t => List.isPrefixOf pat (c :: t) || containsSub pat t

/-- Go strings.Contains(s, pat) (src/main.go line 101): pat occurs as a
substring of s (always true for the empty pat). -/
def strContains (s pat : String) : Bool :=
  containsSub pat.toList s.toList

/-- Check, src/main.go lines 49-59. The URL field keeps the parsed raw text
(see urlParse); ContentRegex keeps the Match function of the compiled
expression; the shutdown channel is modelled separately in the reload
transition system below. -/
structure Check where
  id : String
  url : Option String
  content : String
  level : String
  contentRegex : Option (String → Bool)
  interval : Int
  splay : Int

/-- One child node of an etcd check directory: only Key and Value are read
by createCheck (src/main.go lines 234-262). -/
structure ChildNode where
  key : String
  value : String

/-- One top-level etcd node under prefix/checks: loadChecks reads Key, Value,
Dir and Nodes (src/main.go lines 299-315). -/
structure Node where
  key : String
  value : String
  dir : Bool
  nodes : List ChildNode

/-- The body of the switch in createCheck, src/main.go lines 236-262, applied
to one child node. The REGEX arm calls log.Fatalf when regexp.Compile fails
(line 249), modelled as Except.error; the URL arm logs and continues on a
parse error (lines 239-242), leaving the field unset. -/
def applyChild (compile : String → Option (String → Bool)) (nodeKey : String)
    (c : Check) (child : ChildNode) : Except String Check :=
  match strUpper (pathBase child.key) with
  | "URL" =>
    match urlParse child.value with
    | none => Except.ok c
    | some u => Except.ok { c with url := some u }
  | "CONTENT" => Except.ok { c with content := child.value }
  | "REGEX" =>
    match compile child.value with
    | none => Except.error ("could not compile regex for Check: " ++ nodeKey)
    | some r => Except.ok { c with contentRegex := some r }
  | "LEVEL" =>
    let l := strUpper child.value
    Except.ok { c with level := if l = "" then DefaultAlertLevel else l }
  | "SPLAY" => Except.ok { c with splay := valueStr child.value }
  | "INTERVAL" => Except.ok { c with interval := valueStr child.value }
  | _ => Except.ok c

/-- The loop over child nodes in createCheck, src/main.go line 234: a fatal
regex error aborts the whole construction (the process exits). -/
def buildCheck (compile : String → Option (String → Bool)) (nodeKey : String)
    (c : Check) : List ChildNode → Except String Check
  | [] => Except.ok c
  | ch :: rest =>
    match applyChild compile nodeKey c ch with
    | Except.error m => Except.error m
    | Except.ok c2 => buildCheck compile nodeKey c2 rest

/-- The zero value of Check created at src/main.go line 232. -/
def initCheck (node : Node) : Check :=
  { id := pathBase node.key, url := none, content := "", level := ""
    contentRegex := none, interval := 0, splay := 0 }

/-- createCheck, src/main.go lines 230-281: build the check from the subtree,
apply the defaults of lines 266-274, and return the "No URL for check" error
of lines 275-277 alongside the check when the URL was never set. The outer
Except.error models the process exit of the log.Fatalf at line 249. -/
def createCheck (compile : String → Option (String → Bool)) (node : Node) :
    Except String (Check × Option String) :=
  match buildCheck compile node.key (initCheck node) node.nodes with
  | Except.error m => Except.error m
  | Except.ok c0 =>
    let c1 := { c0 with splay := if c0.splay = 0 then DefaultSplay else c0.splay }
    let c2 := { c1 with interval := if c1.interval = 0 then DefaultInterval else c1.interval }
    let c3 := { c2 with level := if c2.level = "" then DefaultAlertLevel else c2.level }
    if c3.url.isNone then Except.ok (c3, some "No URL for check")
    else Except.ok (c3, none)

/-- The parse loop of loadChecks, src/main.go lines 299-315: skip non-directory
top-level nodes, skip checks whose construction reports an error, collect the
rest in order. An Except.error is the process exit caused by the log.Fatalf
inside createCheck. -/
def parseChecks (compile : String → Option (String → Bool)) :
    List Node → Except String (List Check)
  | [] => Except.ok []
  | n :: rest =>
    if n.dir = false then parseChecks compile rest
    else
      match createCheck compile n with
      | Except.error m => Except.error m
      | Except.ok (_, some _) => parseChecks compile rest
      | Except.ok (c, none) =>
        match parseChecks compile rest with
        | Except.error m => Except.error m
        | Except.ok cs => Except.ok (c :: cs)

/-- Projection used by the theorems: the ids of a successfully parsed check
set, or none when the load died in log.Fatalf. -/
def checkIds : Except String (List Check) → Option (List String)
  | Except.error _ => none
  | Except.ok cs => some (cs.map (fun c => c.id))

/-- Projection used by the theorems: did the parse loop terminate the
process. -/
def loadFatal : Except String (List Check) → Bool
  | Except.error _ => true
  | Except.ok _ => false

/-- Result of one invocation of loadChecks, src/main.go lines 284-316: either
the process exits in log.Fatalf, or a new generation of checks is started. -/
inductive LoadResult where
  | fatal (msg : String)
  | started (cs : List Check)

/-- loadChecks, src/main.go lines 284-316: a fetch error from etcd is
log.Fatalf (lines 285-288) on every invocation, first load and reloads
alike; otherwise the snapshot nodes are parsed. -/
def loadChecks (compile : String → Option (String → Bool))
    (fetch : Except String (List Node)) : LoadResult :=
  match fetch with
  | Except.error e => LoadResult.fatal ("Problem fetching Checks from etcd: " ++ e)
  | Except.ok nodes =>
    match parseChecks compile nodes with
    | Except.error m => LoadResult.fatal m
    | Except.ok cs => LoadResult.started cs

/-- Process state over successive loadChecks invocations: main calls
loadChecks once at startup (src/main.go line 389) and once per watch event
(line 399); log.Fatalf exits the process. -/
inductive ProcState where
  | alive (cur : List Check)
  | exited (msg : String)

/-- One loadChecks invocation seen from the process: a fatal load exits,
a successful one replaces the current generation. -/
def loadStep (compile : String → Option (String → Bool))
    (st : ProcState) (fetch : Except String (List Node)) : ProcState :=
  match st with
  | ProcState.exited m => ProcState.exited m
  | ProcState.alive _ =>
    match loadChecks compile fetch with
    | LoadResult.fatal m => ProcState.exited m
    | LoadResult.started cs => ProcState.alive cs

/-- The sequence of loadChecks invocations performed by main (startup load
followed by one reload per watch notification), src/main.go lines 389-400. -/
def processLoads (compile : String → Option (String → Bool))
    (fetches : List (Except String (List Node))) : ProcState :=
  fetches.foldl (loadStep compile) (ProcState.alive [])

/-- Projection used by the theorems: has the process exited. -/
def procExited : ProcState → Bool
  | ProcState.exited _ => true
  | ProcState.alive _ => false

/-- Result of reading one HTTP response in the probe: Status text plus the
body read performed by ioutil.ReadAll at src/main.go line 96 (an Except.error
is a read failure with its error text). -/
structure HttpResponse where
  body : Except String String
  status : String

/-- The errorVal local of Validate, src/main.go lines 92-95: severity 2 for a
CRITICAL check, 1 otherwise. -/
def errorVal (c : Check) : Int :=
  if c.level = "CRITICAL" then 2 else 1

/-- Validate, src/main.go lines 90-111: body-read failure, then content
literal, then content regex, in that order; otherwise 0 with the HTTP status
text. -/
def validate (c : Check) (res : HttpResponse) : Int × String :=
  match res.body with
  | Except.error e => (errorVal c, "Error reading response: " ++ e)
  | Except.ok body =>
    if c.content ≠ "" ∧ strContains body c.content = false then
      (errorVal c, "Content match failed")
    else
      match c.contentRegex with
      | some re =>
        if re body = false then (errorVal c, "Content Regex did not match")
        else (0, res.status)
      | none => (0, res.status)

/-- Outcome of the http.Get call at src/main.go line 154: per the net/http
contract, either a non-nil error with a nil response, or a response. -/
inductive GetOutcome where
  | failure (e : String)
  | success (r : HttpResponse)

/-- What one iteration of the Monitor loop body does after http.Get,
src/main.go lines 154-161: the pair passed to reportStatus, whether Validate
ran, and whether the unconditional r.Body.Close() at line 161 dereferenced a
nil response (which is the case exactly when http.Get returned an error, so
r is nil; in Go this is a panic that crashes the process). -/
structure CycleResult where
  reported : Int × String
  validateRan : Bool
  nilDeref : Bool

/-- One Monitor probe cycle, src/main.go lines 154-161. -/
def monitorCycle (c : Check) (g : GetOutcome) : CycleResult :=
  match g with
  | GetOutcome.failure e =>
    { reported := (2, e), validateRan := false, nilDeref := true }
  | GetOutcome.success r =>
    { reported := validate c r, validateRan := true, nilDeref := false }

/-- setupInterval, src/main.go lines 75-86: non-positive interval and splay
fall back to the defaults, then rand.Intn(splay) is added to the interval.
The library randomness is passed in as randIntn; the real rand.Intn n
returns a value in [0, n). -/
def setupInterval (randIntn : Int → Int) (c : Check) : Check :=
  let i := if c.interval ≤ 0 then DefaultInterval else c.interval
  let s := if c.splay ≤ 0 then DefaultSplay else c.splay
  { c with interval := i + randIntn s, splay := s }

/-- The sleep durations of successive iterations of the Monitor loop,
src/main.go lines 142-163: every iteration sleeps c.Interval seconds and
nothing in the loop mutates the check. -/
def monitorLoopSleeps (c : Check) : Nat → List Int
  | 0 => []
  | n + 1 => c.interval :: monitorLoopSleeps c n

/-- Monitor, src/main.go lines 133-135 and 142-163: setupInterval runs once,
before the loop; the list gives the sleep duration of each of the first n
iterations. -/
def monitorSleeps (randIntn : Int → Int) (c : Check) (n : Nat) : List Int :=
  monitorLoopSleeps (setupInterval randIntn c) n

/-- Phase of one Monitor goroutine: Running from the go statement at
src/main.go line 313 until the select at lines 143-146 observes the shutdown
channel and returns. -/
inductive Phase where
  | running
  | stopped
  deriving DecidableEq

/-- One Monitor goroutine: its check id, the generation (reload round) that
started it, its phase, and whether the buffered shutdown channel created at
src/main.go line 233 holds the signal sent by Shutdown (lines 167-169). -/
structure Mon where
  id : String
  gen : Nat
  phase : Phase
  signaled : Bool
  deriving DecidableEq

/-- Global state of the reload transition system: all Monitor goroutines
started so far and the index of the current generation (the Checks slice of
src/main.go line 71 holds exactly the monitors whose gen field equals
curGen). -/
structure SysState where
  mons : List Mon
  curGen : Nat
  deriving DecidableEq

/-- Shutdown, src/main.go lines 167-169, applied to one registered monitor:
the send into the buffered channel returns immediately and only marks the
signal as delivered; it does not wait for the goroutine to observe it. -/
def signalCurrent (g : Nat) (m : Mon) : Mon :=
  if m.gen = g then { m with signaled := true } else m

/-- A Monitor started for the new generation by the go statement at
src/main.go line 313. -/
def newMon (g : Nat) (i : String) : Mon :=
  { id := i, gen := g, phase := Phase.running, signaled := false }

/-- The generation transition performed by loadChecks, src/main.go lines
290-315: send the shutdown signal to every monitor of the current generation
(lines 290-294), clear the registry (line 297), then start one Running
monitor per new check id (lines 299-315). No step of the function waits for
an old monitor to observe its signal: phases are unchanged. -/
def loadChecksStep (s : SysState) (ids : List String) : SysState :=
  { mons := s.mons.map (signalCurrent s.curGen) ++ ids.map (newMon (s.curGen + 1))
    curGen := s.curGen + 1 }

/-- The select at src/main.go lines 143-146: a signaled Running monitor that
gets scheduled observes the channel and stops; this is the only transition
that moves a monitor to Stopped. -/
def observeShutdown (m : Mon) : Mon :=
  if m.signaled ∧ m.phase = Phase.running then { m with phase := Phase.stopped } else m

/-- Two monitors of different generations with the same check id are both
observably Running. -/
def dupRunning (s : SysState) : Bool :=
  s.mons.any (fun m1 => s.mons.any (fun m2 =>
    m1.id == m2.id && m1.phase == Phase.running && m2.phase == Phase.running
      && m1.gen != m2.gen))

/-- C4: for every check and every probe cycle whose HTTP GET fails at the
transport level, the outcome passed to reportStatus is severity 2 with the
transport error text as message, whatever the alert level of the check, and
Validate is not invoked (src/main.go lines 154-160). -/
theorem c4_transport_failure_severity :
    ∀ (c : Check) (e : String),
      (monitorCycle c (GetOutcome.failure e)).reported = (2, e) ∧
      (monitorCycle c (GetOutcome.failure e)).validateRan = false :=
  fun _ _ => ⟨rfl, rfl⟩

/-- Concrete check used to evaluate the Monitor loop body at a transport
failure. -/
def c5check : Check :=
  ⟨"web", some "http://example.com", "", "WARN", none, 15, 5⟩

/-- C5: evaluation at the failing input. On a transport-level failure the
loop body reports severity 2 but then executes r.Body.Close() at src/main.go
line 161 with r nil, a nil-pointer dereference that panics the process; so
the Monitor loop body does dereference nil on a probe outcome, contradicting
the claim. -/
theorem c5_nil_deref_on_transport_failure :
    (monitorCycle c5check (GetOutcome.failure "dial tcp: connection refused")).nilDeref
      = true ∧
    (monitorCycle c5check (GetOutcome.failure "dial tcp: connection refused")).reported
      = (2, "dial tcp: connection refused") :=
  ⟨rfl, rfl⟩

/-- C6: for every valid check definition (positive interval and splay) and
every randomness oracle behaving like rand.Intn, every sleep the Monitor
loop performs lies in the half-open range from interval to interval plus
splay, and equals the one effective interval computed by setupInterval when
the Monitor started, so it is not re-randomized per cycle. -/
theorem c6_effective_interval_range_and_fixed :
    ∀ (randIntn : Int → Int) (c : Check) (n : Nat) (d : Int),
      (∀ m : Int, 0 < m → 0 ≤ randIntn m ∧ randIntn m < m) →
      0 < c.interval → 0 < c.splay →
      d ∈ monitorSleeps randIntn c n →
      (c.interval ≤ d ∧ d < c.interval + c.splay) ∧
      d = (setupInterval randIntn c).interval := by
  intro randIntn c n d hr hi hs hd
  have hmem : ∀ (k : Nat) (x : Int),
      x ∈ monitorLoopSleeps (setupInterval randIntn c) k →
      x = (setupInterval randIntn c).interval := by
    intro k
    induction k with
    | zero => intro x hx; simp [monitorLoopSleeps] at hx
    | succ k ih =>
      intro x hx
      rcases List.mem_cons.mp hx with h | h
      · exact h
      · exact ih x h
  have hd2 := hmem n d hd
  have hsi : (setupInterval randIntn c).interval = c.interval + randIntn c.splay := by
    simp [setupInterval, if_neg (not_le.mpr hi), if_neg (not_le.mpr hs)]
  obtain ⟨h0, h1⟩ := hr c.splay hs
  refine ⟨⟨?_, ?_⟩, hd2⟩
  · rw [hd2, hsi]; linarith
  · rw [hd2, hsi]; linarith

/-- Concrete check used to instantiate the C6 theorem. -/
def c6check : Check := ⟨"w", some "http://x", "", "WARN", none, 10, 4⟩

/-- C6 witness: the theorem applied to a concrete check with interval 10 and
splay 4 and the oracle returning m - 1. -/
theorem c6_witness :
    (c6check.interval ≤ 13 ∧ (13 : Int) < c6check.interval + c6check.splay) ∧
    (13 : Int) = (setupInterval (fun m => m - 1) c6check).interval :=
  c6_effective_interval_range_and_fixed (fun m => m - 1) c6check 2 13
    (fun m hm => ⟨by show (0 : Int) ≤ m - 1; omega, by show m - 1 < m; omega⟩)
    (by decide) (by decide) (by decide)

/-- C7: for every check and response with a readable body that contains the
content literal (or the literal is empty) and satisfies the content regex
(or no regex is set), Validate returns 0 with the HTTP status text as
message (src/main.go lines 90-111). -/
theorem c7_validate_ok :
    ∀ (c : Check) (res : HttpResponse) (body : String),
      res.body = Except.ok body →
      (c.content = "" ∨ strContains body c.content = true) →
      (∀ re, c.contentRegex = some re → re body = true) →
      validate c res = (0, res.status) := by
  intro c res body hb hlit hre
  have hcond : ¬ (c.content ≠ "" ∧ strContains body c.content = false) := by
    rcases hlit with h | h
    · intro hc; exact hc.1 h
    · intro hc; simp [h] at hc
  cases hcr : c.contentRegex with
  | none => simp [validate, hb, hcond, hcr]
  | some re => simp [validate, hb, hcond, hcr, hre re hcr]

/-- Concrete check for the C7 witness: CONTENT is "ok", no regex. -/
def c7check : Check := ⟨"c", some "http://y", "ok", "WARN", none, 15, 5⟩

/-- Concrete response for the C7 witness: body "service ok", status text
"200 OK". -/
def c7res : HttpResponse := ⟨Except.ok "service ok", "200 OK"⟩

/-- C7 witness: the theorem applied to the scenario of spec section 8. -/
theorem c7_witness : validate c7check c7res = (0, c7res.status) :=
  c7_validate_ok c7check c7res "service ok" rfl (Or.inr (by decide))
    (fun re h => by simp [c7check] at h)

/-- Concrete CRITICAL check with CONTENT "ok" used against body "error". -/
def c8check : Check := ⟨"c", some "http://y", "ok", "CRITICAL", none, 15, 5⟩

/-- Concrete response with readable body "error". -/
def c8res : HttpResponse := ⟨Except.ok "error", "200 OK"⟩

/-- C8 counterexample: on a content-literal mismatch Validate returns the
message "Content match failed" (src/main.go line 102), which is not the
string "content match failed" the claim states; the severity part holds. -/
theorem c8_counterexample :
    validate c8check c8res = (2, "Content match failed") ∧
    ((2 : Int), "Content match failed") ≠ ((2 : Int), "content match failed") := by
  constructor
  · decide
  · decide

/-- C8 amended: for every check and readable response body, a literal
mismatch yields (errorVal, "Content match failed") and a regex mismatch
after a passing literal check yields (errorVal, "Content Regex did not
match"), where errorVal is 2 for level CRITICAL and 1 for every other
level (src/main.go lines 90-107). -/
theorem c8_mismatch_severity_and_messages :
    ∀ (c : Check) (res : HttpResponse) (body : String),
      res.body = Except.ok body →
      (c.content ≠ "" → strContains body c.content = false →
        validate c res = (errorVal c, "Content match failed")) ∧
      (∀ re, (c.content = "" ∨ strContains body c.content = true) →
        c.contentRegex = some re → re body = false →
        validate c res = (errorVal c, "Content Regex did not match")) ∧
      (c.level = "CRITICAL" → errorVal c = 2) ∧
      (c.level ≠ "CRITICAL" → errorVal c = 1) := by
  intro c res body hb
  refine ⟨?_, ?_, ?_, ?_⟩
  · intro hne hfail
    simp [validate, hb, hne, hfail]
  · intro re hlit hcr hre
    have hcond : ¬ (c.content ≠ "" ∧ strContains body c.content = false) := by
      rcases hlit with h | h
      · intro hc; exact hc.1 h
      · intro hc; simp [h] at hc
    simp [validate, hb, hcond, hcr, hre]
  · intro h; simp [errorVal, h]
  · intro h; simp [errorVal, h]

/-- Concrete WARN check whose regex never matches, used for the regex arm of
the C8 witness. -/
def c8warn : Check :=
  ⟨"d", some "http://z", "", "WARN", some (fun _ => false), 15, 5⟩

/-- C8 witness: the amended theorem applied to a CRITICAL literal mismatch
(severity 2) and to a WARN regex mismatch (severity 1). -/
theorem c8_witness :
    validate c8check c8res = (errorVal c8check, "Content match failed") ∧
    validate c8warn c8res = (errorVal c8warn, "Content Regex did not match") :=
  ⟨(c8_mismatch_severity_and_messages c8check c8res "error" rfl).1
      (by decide) (by decide),
   (c8_mismatch_severity_and_messages c8warn c8res "error" rfl).2.1
      (fun _ => false) (Or.inl rfl) rfl rfl⟩

/-- C10: Validate applies its checks in a fixed order: a body-read failure
is reported before any content check, with the read error text as message;
and when the literal and the regex would both fail to match, the outcome is
the literal mismatch, never the regex one (src/main.go lines 96-107). -/
theorem c10_precedence :
    (∀ (c : Check) (e st : String),
      validate c ⟨Except.error e, st⟩ = (errorVal c, "Error reading response: " ++ e)) ∧
    (∀ (c : Check) (res : HttpResponse) (body : String) (re : String → Bool),
      res.body = Except.ok body →
      c.content ≠ "" → strContains body c.content = false →
      c.contentRegex = some re → re body = false →
      validate c res = (errorVal c, "Content match failed")) := by
  constructor
  · intro c e st; rfl
  · intro c res body re hb hne hfail hcr hre
    simp [validate, hb, hne, hfail]

/-- Concrete CRITICAL check whose literal and regex would both fail. -/
def c10check : Check :=
  ⟨"p", some "http://w", "ok", "CRITICAL", some (fun _ => false), 15, 5⟩

/-- Concrete readable response whose body fails both content checks. -/
def c10res : HttpResponse := ⟨Except.ok "bad body", "200 OK"⟩

/-- C10 witness: the theorem applied at a read failure and at a response
failing both content checks. -/
theorem c10_witness :
    validate c10check ⟨Except.error "read timeout", "200 OK"⟩ =
      (errorVal c10check, "Error reading response: " ++ "read timeout") ∧
    validate c10check c10res = (errorVal c10check, "Content match failed") :=
  ⟨c10_precedence.1 c10check "read timeout" "200 OK",
   c10_precedence.2 c10check c10res "bad body" (fun _ => false) rfl
     (by decide) (by decide) rfl rfl⟩

/-- Regex-compile oracle that always succeeds (the C9 scenario has no REGEX
subtree, so compilation is never reached). -/
def compileT : String → Option (String → Bool) :=
  fun _ => some (fun _ => true)

/-- Scenario entry a of spec section 8: URL http://x. -/
def c9a : Node :=
  ⟨"/urlmon/checks/a", "", true, [⟨"/urlmon/checks/a/URL", "http://x"⟩]⟩

/-- Scenario entry b of spec section 8: URL value "not a url". -/
def c9b : Node :=
  ⟨"/urlmon/checks/b", "", true, [⟨"/urlmon/checks/b/URL", "not a url"⟩]⟩

/-- Scenario entry c of spec section 8: URL http://y, CONTENT ok. -/
def c9c : Node :=
  ⟨"/urlmon/checks/c", "", true,
    [⟨"/urlmon/checks/c/URL", "http://y"⟩, ⟨"/urlmon/checks/c/CONTENT", "ok"⟩]⟩

/-- A top-level entry with no URL subtree at all. -/
def c9noUrl : Node :=
  ⟨"/urlmon/checks/n", "", true, [⟨"/urlmon/checks/n/CONTENT", "ok"⟩]⟩

/-- C9: evaluation at the failing input. Go url.Parse accepts "not a url"
(it is a lenient parser that rejects only control characters), so entry b is
constructed and loaded and the generation is a, b, c, not the a, c the claim
states; only a missing URL subtree is skipped, as the second conjunct
shows. -/
theorem c9_scenario :
    checkIds (parseChecks compileT [c9a, c9b, c9c]) = some ["a", "b", "c"] ∧
    checkIds (parseChecks compileT [c9a, c9noUrl, c9c]) = some ["a", "c"] := by
  constructor
  · decide
  · decide

/-- Helper: once the process has exited, no later loadChecks invocation
runs. -/
theorem foldl_loadStep_exited
    (compile : String → Option (String → Bool))
    (fs : List (Except String (List Node))) (m : String) :
    fs.foldl (loadStep compile) (ProcState.exited m) = ProcState.exited m := by
  induction fs with
  | nil => rfl
  | cons f rest ih => simpa [List.foldl_cons, loadStep] using ih

/-- C3 counterexample: with a successful first load, a fetch failure on the
next reload exits the process (the log.Fatalf of src/main.go line 287 runs
on every invocation), whereas the claim says only a first-load fetch failure
terminates the process. -/
theorem c3_counterexample :
    procExited (processLoads compileT [Except.ok [], Except.error "connection refused"])
      = true ∧
    procExited (processLoads compileT [Except.ok []]) = false :=
  ⟨rfl, rfl⟩

/-- C3 amended: a snapshot fetch failure is fatal to the process on every
load, first or later alike: whatever sequence of loads left the process
alive, one more loadChecks invocation whose etcd fetch fails exits the
process with the fetch error. -/
theorem c3_fetch_failure_always_fatal :
    ∀ (compile : String → Option (String → Bool))
      (fetches : List (Except String (List Node))) (cs : List Check)
      (e : String) (rest : List (Except String (List Node))),
      processLoads compile fetches = ProcState.alive cs →
      processLoads compile (fetches ++ Except.error e :: rest) =
        ProcState.exited ("Problem fetching Checks from etcd: " ++ e) := by
  intro compile fetches cs e rest halive
  unfold processLoads at halive ⊢
  rw [List.foldl_append, halive, List.foldl_cons]
  have hstep : loadStep compile (ProcState.alive cs) (Except.error e) =
      ProcState.exited ("Problem fetching Checks from etcd: " ++ e) := rfl
  rw [hstep]
  exact foldl_loadStep_exited compile rest _

/-- C3 witness: the amended theorem applied to a successful empty first load
followed by a failed reload fetch. -/
theorem c3_witness :
    processLoads compileT [Except.ok [], Except.error "etcd down"] =
      ProcState.exited ("Problem fetching Checks from etcd: " ++ "etcd down") :=
  c3_fetch_failure_always_fatal compileT [Except.ok []] [] "etcd down" [] rfl

/-- A child node whose key names the REGEX field of a check. -/
def isRegexChild (ch : ChildNode) : Bool :=
  strUpper (pathBase ch.key) == "REGEX"

/-- Helper: the REGEX arm of the switch with a failing compile is the
log.Fatalf of src/main.go line 249. -/
theorem applyChild_bad_regex
    (compile : String → Option (String → Bool)) (key : String)
    (c : Check) (ch : ChildNode)
    (hreg : isRegexChild ch = true) (hcomp : compile ch.value = none) :
    applyChild compile key c ch =
      Except.error ("could not compile regex for Check: " ++ key) := by
  have h1 : strUpper (pathBase ch.key) = "REGEX" := by
    simpa [isRegexChild] using hreg
  unfold applyChild
  rw [h1, hcomp]
  rfl

/-- Helper: every arm of the switch other than a failing REGEX arm succeeds. -/
theorem applyChild_ok_of_not_bad
    (compile : String → Option (String → Bool)) (key : String)
    (c : Check) (ch : ChildNode)
    (h : isRegexChild ch = true → compile ch.value ≠ none) :
    ∃ c2, applyChild compile key c ch = Except.ok c2 := by
  unfold applyChild
  split
  all_goals try exact ⟨_, rfl⟩
  · cases urlParse ch.value with
    | none => exact ⟨_, rfl⟩
    | some u => exact ⟨_, rfl⟩
  · rename_i heq
    have hb : isRegexChild ch = true := by simp [isRegexChild, heq]
    cases hc : compile ch.value with
    | none => exact absurd hc (h hb)
    | some r => exact ⟨_, rfl⟩

/-- Helper: a child list holding a REGEX entry that fails to compile makes
the construction loop die in log.Fatalf, whatever the accumulated check. -/
theorem buildCheck_fatal
    (compile : String → Option (String → Bool)) (key : String) :
    ∀ (children : List ChildNode) (c : Check),
      children.any (fun ch => isRegexChild ch && (compile ch.value).isNone) = true →
      ∃ m, buildCheck compile key c children = Except.error m := by
  intro children
  induction children with
  | nil => intro c h; simp at h
  | cons ch rest ih =>
    intro c h
    by_cases hbad : isRegexChild ch = true ∧ compile ch.value = none
    · obtain ⟨h1, h2⟩ := hbad
      refine ⟨"could not compile regex for Check: " ++ key, ?_⟩
      simp [buildCheck, applyChild_bad_regex compile key c ch h1 h2]
    · obtain ⟨c2, hc2⟩ :=
        applyChild_ok_of_not_bad compile key c ch (fun hr hc => hbad ⟨hr, hc⟩)
      have hrest : rest.any (fun ch => isRegexChild ch && (compile ch.value).isNone)
          = true := by
        rw [List.any_cons] at h
        rcases Bool.or_eq_true_iff.mp h with hh | hh
        · obtain ⟨hr1, hr2⟩ := Bool.and_eq_true_iff.mp hh
          exact absurd ⟨hr1, Option.isNone_iff_eq_none.mp hr2⟩ hbad
        · exact hh
      obtain ⟨m, hm⟩ := ih c2 hrest
      exact ⟨m, by simp [buildCheck, hc2, hm]⟩

/-- C2 amended: a configuration subtree whose REGEX value fails to compile
is fatal to the whole process, not just to that single check: createCheck
runs the log.Fatalf of src/main.go line 249, so the load dies and none of
the other checks of the snapshot are loaded. -/
theorem c2_regex_compile_fatal :
    ∀ (compile : String → Option (String → Bool)) (n : Node) (rest : List Node),
      n.dir = true →
      n.nodes.any (fun ch => isRegexChild ch && (compile ch.value).isNone) = true →
      ∃ m, createCheck compile n = Except.error m ∧
        parseChecks compile (n :: rest) = Except.error m := by
  intro compile n rest hdir hbad
  obtain ⟨m, hm⟩ := buildCheck_fatal compile n.key n.nodes (initCheck n) hbad
  refine ⟨m, ?_, ?_⟩
  · simp [createCheck, hm]
  · simp [parseChecks, hdir, createCheck, hm]

/-- Regex oracle failing exactly on the unbalanced pattern. -/
def c2compile : String → Option (String → Bool) :=
  fun s => if s = "(" then none else some (fun _ => true)

/-- Check subtree with an uncompilable REGEX value. -/
def c2bad : Node :=
  ⟨"/urlmon/checks/b", "", true,
    [⟨"/urlmon/checks/b/URL", "http://b"⟩, ⟨"/urlmon/checks/b/REGEX", "("⟩]⟩

/-- A well-formed check subtree listed after the bad one. -/
def c2good : Node :=
  ⟨"/urlmon/checks/g", "", true, [⟨"/urlmon/checks/g/URL", "http://g"⟩]⟩

/-- C2 counterexample: with the malformed REGEX present the whole load dies
in log.Fatalf and the well-formed check g is not loaded, although the same
snapshot without the bad entry loads g; the claim says the bad check alone
is skipped and the rest of the snapshot still loads. -/
theorem c2_counterexample :
    loadFatal (parseChecks c2compile [c2bad, c2good]) = true ∧
    checkIds (parseChecks c2compile [c2good]) = some ["g"] := by
  constructor
  · decide
  · decide

/-- C2 witness: the amended theorem applied to the concrete snapshot; the
load produces no generation at all. -/
theorem c2_witness :
    checkIds (parseChecks c2compile [c2bad, c2good]) = none := by
  obtain ⟨m, hc, hp⟩ := c2_regex_compile_fatal c2compile c2bad [c2good] rfl (by decide)
  rw [hp]
  rfl

/-- Initial state for the C1 counterexample: one prior-generation Monitor
for check id a, Running and not yet signaled. -/
def c1s0 : SysState := ⟨[⟨"a", 0, Phase.running, false⟩], 0⟩

/-- C1 counterexample: a reload of the same single check id starting from a
state with no cross-generation Running overlap produces a state in which the
old generation Monitor for a and the new generation Monitor for a are both
Running: loadChecks only sends the buffered shutdown signal (src/main.go
lines 290-294, 167-169) and starts the new goroutines at line 313 without
ever waiting for the old ones to reach Stopped. -/
theorem c1_counterexample :
    dupRunning c1s0 = false ∧
    dupRunning (loadChecksStep c1s0 ["a"]) = true := by
  constructor
  · decide
  · decide

/-- C1 amended: for every reload, loadChecks signals cancellation to every
Monitor of the current generation and only then starts the Monitors of the
new generation, but it does not block for the old generation to reach
Stopped: every prior-generation Monitor that was Running when the reload ran
is still Running in the resulting state, alongside the freshly started
Running Monitors of the new generation. -/
theorem c1_signals_but_does_not_drain :
    ∀ (s : SysState) (ids : List String),
      (∀ m : Mon, m ∈ s.mons → m.gen = s.curGen →
        { m with signaled := true } ∈ (loadChecksStep s ids).mons) ∧
      (∀ m : Mon, m ∈ s.mons → m.phase = Phase.running →
        ∃ m2 : Mon, m2 ∈ (loadChecksStep s ids).mons ∧
          m2.id = m.id ∧ m2.gen = m.gen ∧ m2.phase = Phase.running) ∧
      (∀ i : String, i ∈ ids →
        newMon (s.curGen + 1) i ∈ (loadChecksStep s ids).mons) := by
  intro s ids
  refine ⟨?_, ?_, ?_⟩
  · intro m hm hg
    have hsig : signalCurrent s.curGen m = { m with signaled := true } := by
      simp [signalCurrent, hg]
    show { m with signaled := true } ∈
      s.mons.map (signalCurrent s.curGen) ++ ids.map (newMon (s.curGen + 1))
    exact List.mem_append_left _ (hsig ▸ List.mem_map_of_mem _ hm)
  · intro m hm hp
    refine ⟨signalCurrent s.curGen m, ?_, ?_, ?_, ?_⟩
    · show signalCurrent s.curGen m ∈
        s.mons.map (signalCurrent s.curGen) ++ ids.map (newMon (s.curGen + 1))
      exact List.mem_append_left _ (List.mem_map_of_mem _ hm)
    · unfold signalCurrent; split <;> rfl
    · unfold signalCurrent; split <;> rfl
    · unfold signalCurrent; split <;> exact hp
  · intro i hi
    show newMon (s.curGen + 1) i ∈
      s.mons.map (signalCurrent s.curGen) ++ ids.map (newMon (s.curGen + 1))
    exact List.mem_append_right _ (List.mem_map_of_mem _ hi)

/-- C1 witness: the amended theorem applied to the one-monitor state; the
old Monitor is signaled yet still Running, and the new generation Monitor
for the same id is Running too. -/
theorem c1_witness :
    ({ id := "a", gen := 0, phase := Phase.running, signaled := true } : Mon) ∈
      (loadChecksStep c1s0 ["a"]).mons ∧
    newMon 1 "a" ∈ (loadChecksStep c1s0 ["a"]).mons := by
  have h := c1_signals_but_does_not_drain c1s0 ["a"]
  refine ⟨?_, h.2.2 "a" (by decide)⟩
  exact h.1 ⟨"a", 0, Phase.running, false⟩ (by decide) rfl
